import Mathlib

/-!
A shallow embedding of `src/warehouse_manager.py` (class `WarehouseManager`)
together with proofs about its operations.

Modelling conventions:
* The backing sqlite database is a list of named tables, one per warehouse,
  in creation order; each table carries its rows plus its AUTOINCREMENT
  counter (the row kept for it in the store-internal `sqlite_sequence`
  bookkeeping table).
* Each SQL statement the Python code builds is a fixed template; it is
  modelled by the semantic effect of that template on the store.  A query
  that sqlite rejects (missing table, malformed interpolated integer
  literal, a table name sqlite does not accept as a bare identifier) is
  modelled exactly as the code treats it: `__execute_query` swallows the
  error (no-op) and `__execute_read_query` yields `none`, so a subscript of
  that `none` raises.
* Python exceptions escaping a method are modelled with `Except PyExn`.
* `int(...)` applied to a form string is modelled by `pyInt`.
-/

namespace Warehouse

/-- Python exceptions that can escape a `WarehouseManager` method. -/
inductive PyExn where
  | typeError (msg : String)
  | valueError (msg : String)
  | indexError (msg : String)
deriving DecidableEq, Repr

/-- Row of a warehouse table, in the column order of the CREATE TABLE
statement in `add_warehouse` (lines 110-116): (name, id, quantity, other). -/
structure Item where
  name : String
  id : Int
  quantity : Int
  other : String
deriving DecidableEq, Repr

/-- One warehouse table: its rows in rowid order, plus the AUTOINCREMENT
counter sqlite keeps for it in `sqlite_sequence`. -/
structure Table where
  items : List Item
  seq : Int
deriving DecidableEq, Repr

/-- The backing database: the user tables, named, in creation order. -/
abbrev Store := List (String × Table)

/-- Largest row id occurring in a list of rows (0 when empty), used by the
model of sqlite AUTOINCREMENT id assignment. -/
def maxId (items : List Item) : Int :=
  items.foldl (fun m it => max m it.id) 0

/-- The table named `n`, if the store has one (sqlite table names are unique,
so the first match is the table). -/
def lookupTable : Store → String → Option Table
  | [], _ => none
  | p :: rest, n => if p.1 == n then some p.2 else lookupTable rest n

/-- Apply `f` to the table named `n`; a statement against a missing table is
an error that `__execute_query` swallows, so the store is left unchanged. -/
def updateTable : Store → String → (Table → Table) → Store
  | [], _, _ => []
  | p :: rest, n, f =>
    if p.1 == n then (p.1, f p.2) :: rest else p :: updateTable rest n f

/-- The sqlite keywords whose tokens the parser does not fall back to plain
identifiers for: a bare table name equal (case-insensitively) to one of
these is a syntax error.  Keywords outside this list (ABORT, TEMP, VIEW,
the JOIN words, ...) are accepted as identifiers by sqlite's fallback
rules and so are absent here. -/
def sqliteReservedWords : List String := [
  "ADD", "ALL", "ALTER", "AND", "AS", "AUTOINCREMENT", "BETWEEN", "CASE",
  "CHECK", "COLLATE", "COMMIT", "CONSTRAINT", "CREATE", "DEFAULT",
  "DEFERRABLE", "DELETE", "DISTINCT", "DROP", "ELSE", "ESCAPE", "EXCEPT",
  "EXISTS", "FILTER", "FOREIGN", "FROM", "GROUP", "HAVING", "IN", "INDEX",
  "INSERT", "INTERSECT", "INTO", "IS", "ISNULL", "JOIN", "LIMIT", "NOT",
  "NOTHING", "NOTNULL", "NULL", "ON", "OR", "ORDER", "OVER", "PRIMARY",
  "REFERENCES", "RETURNING", "SELECT", "SET", "TABLE", "TEMPORARY", "THEN",
  "TO", "TRANSACTION", "UNION", "UNIQUE", "UPDATE", "USING", "VALUES",
  "WHEN", "WHERE", "WINDOW"]

/-- First character sqlite's tokenizer accepts for a bare identifier: an
ASCII letter, an underscore, or any non-ASCII character. -/
def sqliteIdStart (c : Char) : Bool :=
  c.isAlpha || c = '_' || c.toNat ≥ 128

/-- Later characters of a bare identifier: ASCII alphanumeric, underscore,
dollar, or any non-ASCII character. -/
def sqliteIdChar (c : Char) : Bool :=
  c.isAlphanum || c = '_' || c = '$' || c.toNat ≥ 128

/-- Code point of a character with ASCII lowercase letters folded to
uppercase, for sqlite's case-insensitive keyword comparison. -/
def asciiUpperNat (c : Char) : Nat :=
  if 97 ≤ c.toNat && c.toNat ≤ 122 then c.toNat - 32 else c.toNat

/-- Case-insensitive (ASCII) equality of character lists, as sqlite
compares keywords and reserved prefixes. -/
def charsEqCI : List Char → List Char → Bool
  | [], [] => true
  | a :: as, b :: bs => asciiUpperNat a == asciiUpperNat b && charsEqCI as bs
  | _, _ => false

/-- Models whether sqlite accepts the interpolated text as a bare table
name in `CREATE TABLE {name} (...)`: it must be identifier-shaped, must
not be a reserved keyword (case-insensitive), and must not carry the
`sqlite_` prefix, which is reserved for internal objects.  The Python code
only normalizes spaces to underscores (line 104), so names like
`"east-wing"` or `"order"` reach the statement unquoted and sqlite
rejects them. -/
def validTableName (n : String) : Bool :=
  match n.toList with
  | [] => false
  | c :: rest =>
    sqliteIdStart c && rest.all sqliteIdChar &&
    !(sqliteReservedWords.any (fun w => charsEqCI n.toList w.toList)) &&
    !(charsEqCI (n.toList.take 7) "sqlite_".toList)

/-- Effect of `CREATE TABLE n (...)` (lines 110-117): a fresh empty table is
appended; if sqlite rejects `n` as a bare table name, or a table named `n`
already exists, sqlite errors and `__execute_query` swallows it, leaving
the store unchanged. -/
def createTable (s : Store) (n : String) : Store :=
  if validTableName n then
    match lookupTable s n with
    | some _ => s
    | none => s ++ [(n, ⟨[], 0⟩)]
  else s

/-- Digit run accumulator for `pyInt`; Python allows a single underscore
between two digits. -/
def pyDigitsAux (acc : Nat) : List Char → Option Nat
  | [] => some acc
  | '_' :: rest =>
    match rest with
    | [] => none
    | c :: rest2 =>
      if c.isDigit then pyDigitsAux (acc * 10 + (c.toNat - 48)) rest2 else none
  | c :: rest =>
    if c.isDigit then pyDigitsAux (acc * 10 + (c.toNat - 48)) rest else none

/-- Nonempty digit run (underscores allowed between digits), value in `Nat`. -/
def pyDigits : List Char → Option Nat
  | [] => none
  | c :: rest => if c.isDigit then pyDigitsAux (c.toNat - 48) rest else none

/-- Strip whitespace from both ends, as Python `int` does to its argument. -/
def stripWs (l : List Char) : List Char :=
  ((l.dropWhile Char.isWhitespace).reverse.dropWhile Char.isWhitespace).reverse

/-- Models Python `int(s)` for a string `s`: optional surrounding whitespace,
optional sign, then decimal digits with single underscores between digits;
`none` models the `ValueError` that the callers catch. -/
def pyInt (s : String) : Option Int :=
  match stripWs s.toList with
  | '+' :: rest => (pyDigits rest).map (fun n => (n : Int))
  | '-' :: rest => (pyDigits rest).map (fun n => -(n : Int))
  | rest => (pyDigits rest).map (fun n => (n : Int))

/-- Plain digit run (no underscores), value in `Nat`, for `sqlIntLit`. -/
def decDigitsAux (acc : Nat) : List Char → Option Nat
  | [] => some acc
  | c :: rest =>
    if c.isDigit then decDigitsAux (acc * 10 + (c.toNat - 48)) rest else none

/-- Nonempty plain digit run, value in `Nat`. -/
def decDigits : List Char → Option Nat
  | [] => none
  | c :: rest => if c.isDigit then decDigitsAux (c.toNat - 48) rest else none

/-- Models how a raw string interpolated as an integer literal into a WHERE
clause is evaluated: optional whitespace and sign, then decimal digits.
`none` models sqlite rejecting the query (the code swallows that error on
writes and gets `none` back on reads). -/
def sqlIntLit (s : String) : Option Int :=
  match stripWs s.toList with
  | '+' :: rest => (decDigits rest).map (fun n => (n : Int))
  | '-' :: rest => (decDigits rest).map (fun n => -(n : Int))
  | rest => (decDigits rest).map (fun n => (n : Int))

/-- Models `warehouse_name.replace(" ", "_")` (line 104): every space becomes
an underscore. -/
def pyReplaceSpace (s : String) : String :=
  String.mk (s.toList.map (fun c => if c = ' ' then '_' else c))

/-- The in-memory state of a `WarehouseManager` object plus the backing
database it is connected to. -/
structure WarehouseManager where
  current_warehouse : Option String
  warehouses : List String
  error_message : Option String
  edit_item_data : Option Item
  store : Store
deriving DecidableEq, Repr

/-- The dictionary returned by `get_warehouse_data` (lines 81-94). -/
structure Snapshot where
  current_warehouse : Option String
  warehouses : List String
  items : Option (List Item)
  edit_item_data : Option Item
  error_message : Option String
deriving DecidableEq, Repr

/-- Models lines 35-37 of `__init__`: the table names read from
`sqlite_master`, from which `"sqlite_sequence"` is removed with
`list.remove`, which raises `ValueError` when it is absent (as on a fresh
empty database, which has no tables at all). -/
def initWarehouses (tableNames : List String) : Except PyExn (List String) :=
  if "sqlite_sequence" ∈ tableNames then
    Except.ok (tableNames.erase "sqlite_sequence")
  else
    Except.error (PyExn.valueError "list.remove(x): x not in list")

/-- Models `__init__` (lines 28-39) run against a database whose user tables
are `store`; `hasSeqTable` says whether `sqlite_master` also lists the
`sqlite_sequence` bookkeeping table (a fresh empty database lists nothing). -/
def openManager (store : Store) (hasSeqTable : Bool) :
    Except PyExn WarehouseManager :=
  let names := store.map Prod.fst ++ (if hasSeqTable then ["sqlite_sequence"] else [])
  match initWarehouses names with
  | Except.ok ws => Except.ok ⟨none, ws, none, none, store⟩
  | Except.error e => Except.error e

/-- Models `__get_items` (lines 188-192): `none` when no warehouse is
selected, and also when the SELECT fails (read helper returns `None`). -/
def getItems (wm : WarehouseManager) : Option (List Item) :=
  match wm.current_warehouse with
  | none => none
  | some cw => (lookupTable wm.store cw).map Table.items

/-- Models `get_warehouse_data` (lines 81-94): assemble the snapshot
dictionary, then clear both transient fields. -/
def get_warehouse_data (wm : WarehouseManager) : Snapshot × WarehouseManager :=
  (⟨wm.current_warehouse, wm.warehouses, getItems wm, wm.edit_item_data,
     wm.error_message⟩,
   { wm with edit_item_data := none, error_message := none })

/-- Models `add_warehouse` (lines 103-134): normalize the name, reject
duplicates, CREATE TABLE, optionally INSERT the current warehouse rows and
then UPDATE every quantity to 0, and finally select and record the name. -/
def add_warehouse (wm : WarehouseManager) (warehouse_name : String)
    (copy_items : Bool) : WarehouseManager :=
  let name := pyReplaceSpace warehouse_name
  if name ∈ wm.warehouses then
    { wm with error_message := some "Warehouse Name must be unique" }
  else
    let store1 := createTable wm.store name
    let store2 :=
      match copy_items, wm.current_warehouse with
      | true, some cw =>
        let storeIns :=
          match lookupTable store1 cw with
          | some src =>
            updateTable store1 name (fun t =>
              ⟨t.items ++ src.items, max t.seq (maxId src.items)⟩)
          | none => store1
        updateTable storeIns name (fun t =>
          { t with items := t.items.map (fun it => { it with quantity := 0 }) })
      | _, _ => store1
    { wm with current_warehouse := some name,
              warehouses := wm.warehouses ++ [name],
              store := store2 }

/-- Models `select_warehouse` (lines 139-147). -/
def select_warehouse (wm : WarehouseManager) (warehouse_name : String) :
    WarehouseManager :=
  if warehouse_name ∉ wm.warehouses then
    { wm with error_message := some (warehouse_name ++ " is not a warehouse") }
  else if wm.current_warehouse = some warehouse_name then
    wm
  else
    { wm with current_warehouse := some warehouse_name }

/-- Models `delete_warehouse` (lines 151-157): `list.remove` raises
`ValueError` when the current warehouse is not in the list; otherwise the
name is removed, the table dropped, and the selection cleared. -/
def delete_warehouse (wm : WarehouseManager) : Except PyExn WarehouseManager :=
  match wm.current_warehouse with
  | none => Except.ok wm
  | some cw =>
    if cw ∈ wm.warehouses then
      Except.ok { wm with warehouses := wm.warehouses.erase cw,
                          store := wm.store.filter (fun p => !(p.1 == cw)),
                          current_warehouse := none }
    else
      Except.error (PyExn.valueError "list.remove(x): x not in list")

/-- Models `add_item` (lines 166-181): guard for a selected warehouse, parse
the quantity with `int`, then INSERT with an AUTOINCREMENT-assigned id. -/
def add_item (wm : WarehouseManager) (name quantity other : String) :
    WarehouseManager :=
  match wm.current_warehouse with
  | none => { wm with error_message := some "Add or select a warehouse to add an item" }
  | some cw =>
    match pyInt quantity with
    | none => { wm with error_message := some "\x27Quantity\x27 must be an interger" }
    | some q =>
      { wm with store := updateTable wm.store cw (fun t =>
          let m := max t.seq (maxId t.items)
          ⟨t.items ++ [⟨name, m + 1, q, other⟩], m + 1⟩) }

/-- Models `id_exists` (lines 275-282) applied to an integer id: when no
warehouse is selected (or its table is missing) the SELECT fails, the read
helper returns `None`, and subscripting it raises `TypeError`. -/
def id_exists (wm : WarehouseManager) (id : Int) : Except PyExn Bool :=
  match wm.current_warehouse with
  | none => Except.error (PyExn.typeError "\x27NoneType\x27 object is not subscriptable")
  | some cw =>
    match lookupTable wm.store cw with
    | none => Except.error (PyExn.typeError "\x27NoneType\x27 object is not subscriptable")
    | some t => Except.ok (t.items.any (fun it => it.id == id))

/-- Models `id_exists` applied to a raw string id (as `edit_item` does): a
string that is not an integer literal makes the SELECT fail, so the
subscript of the `None` result raises `TypeError`. -/
def id_exists_str (wm : WarehouseManager) (id : String) : Except PyExn Bool :=
  match sqlIntLit id with
  | none => Except.error (PyExn.typeError "\x27NoneType\x27 object is not subscriptable")
  | some i => id_exists wm i

/-- Models `edit_quantity` (lines 200-215): parse both strings with `int`,
check the id via `id_exists` (which can raise), then UPDATE the matching
row's quantity by the signed delta with no bound checks. -/
def edit_quantity (wm : WarehouseManager) (id quantity : String) :
    Except PyExn WarehouseManager :=
  match pyInt id, pyInt quantity with
  | some i, some q =>
    match id_exists wm i with
    | Except.error e => Except.error e
    | Except.ok false =>
      Except.ok { wm with error_message := some "Item ID does not exist!" }
    | Except.ok true =>
      match wm.current_warehouse with
      | none => Except.ok wm
      | some cw =>
        Except.ok { wm with store := updateTable wm.store cw (fun t =>
          { t with items := t.items.map (fun it =>
              if it.id == i then { it with quantity := it.quantity + q } else it) }) }
  | _, _ =>
    Except.ok { wm with error_message := some "\x27Quantity\x27 and ID must be an intergers." }

/-- Models `edit_item` (lines 229-242): check the raw string id via
`id_exists` (which can raise), then SELECT the row and stage it into
`edit_item_data`; the item itself is not mutated. -/
def edit_item (wm : WarehouseManager) (id : String) :
    Except PyExn WarehouseManager :=
  match id_exists_str wm id with
  | Except.error e => Except.error e
  | Except.ok false =>
    Except.ok { wm with error_message := some "Item ID does not exist" }
  | Except.ok true =>
    match wm.current_warehouse with
    | none => Except.error (PyExn.typeError "\x27NoneType\x27 object is not subscriptable")
    | some cw =>
      match lookupTable wm.store cw with
      | none => Except.error (PyExn.typeError "\x27NoneType\x27 object is not subscriptable")
      | some t =>
        match sqlIntLit id with
        | none => Except.error (PyExn.typeError "\x27NoneType\x27 object is not subscriptable")
        | some i =>
          match t.items.find? (fun it => it.id == i) with
          | some it => Except.ok { wm with edit_item_data := some it }
          | none => Except.error (PyExn.indexError "list index out of range")

/-- Effect of the UPDATE in `save_edit` (lines 266-271): overwrite every row
whose id is `old_id`; against a missing table the error is swallowed. -/
def save_edit_apply (wm : WarehouseManager) (name : String) (i q : Int)
    (other : String) (oi : Int) : WarehouseManager :=
  match wm.current_warehouse with
  | none => wm
  | some cw =>
    { wm with store := updateTable wm.store cw (fun t =>
        { t with items := t.items.map (fun it =>
            if it.id == oi then ⟨name, i, q, other⟩ else it) }) }

/-- Models `save_edit` (lines 249-271): parse the quantity, parse both ids,
reject a collision when the id changes, then UPDATE the row at `old_id`. -/
def save_edit (wm : WarehouseManager) (name id quantity other old_id : String) :
    Except PyExn WarehouseManager :=
  match pyInt quantity with
  | none =>
    Except.ok { wm with error_message := some "\x27Quantity\x27 must be an interger." }
  | some q =>
    match pyInt id, pyInt old_id with
    | some i, some oi =>
      if i ≠ oi then
        match id_exists wm i with
        | Except.error e => Except.error e
        | Except.ok true =>
          Except.ok { wm with error_message := some "IDs must be unique." }
        | Except.ok false => Except.ok (save_edit_apply wm name i q other oi)
      else
        Except.ok (save_edit_apply wm name i q other oi)
    | _, _ => Except.ok { wm with error_message := some "IDs must be integers." }

/-- Models `delete_item` (lines 286-291): a single DELETE with the raw string
id interpolated; when no warehouse is selected or the string is not an
integer literal the statement fails and the error is swallowed. -/
def delete_item (wm : WarehouseManager) (id : String) : WarehouseManager :=
  match wm.current_warehouse with
  | none => wm
  | some cw =>
    match sqlIntLit id with
    | none => wm
    | some i =>
      { wm with store := updateTable wm.store cw (fun t =>
          { t with items := t.items.filter (fun it => !(it.id == i)) }) }

/-- One call arriving at the manager from the routing layer, always with raw
string form fields (`app.py`). -/
inductive Op where
  | add_warehouse (name : String) (copy_items : Bool)
  | select_warehouse (name : String)
  | delete_warehouse
  | add_item (name quantity other : String)
  | edit_quantity (id quantity : String)
  | edit_item (id : String)
  | save_edit (name id quantity other old_id : String)
  | delete_item (id : String)
  | get_warehouse_data
deriving DecidableEq, Repr

/-- The manager state after one call.  When a call raises, the raise happens
before any field or store mutation (checked against the source for every
raising path), so the object state is the pre-call state. -/
def runOp (wm : WarehouseManager) : Op → WarehouseManager
  | Op.add_warehouse n c => add_warehouse wm n c
  | Op.select_warehouse n => select_warehouse wm n
  | Op.delete_warehouse =>
    match delete_warehouse wm with
    | Except.ok s => s
    | Except.error _ => wm
  | Op.add_item n q o => add_item wm n q o
  | Op.edit_quantity i q =>
    match edit_quantity wm i q with
    | Except.ok s => s
    | Except.error _ => wm
  | Op.edit_item i =>
    match edit_item wm i with
    | Except.ok s => s
    | Except.error _ => wm
  | Op.save_edit n i q o oi =>
    match save_edit wm n i q o oi with
    | Except.ok s => s
    | Except.error _ => wm
  | Op.delete_item i => delete_item wm i
  | Op.get_warehouse_data => (get_warehouse_data wm).2

/-- State reached from `s0` by a sequence of calls. -/
def reachFrom (s0 : WarehouseManager) (ops : List Op) : WarehouseManager :=
  ops.foldl runOp s0

/-- The selection invariant: the current warehouse, if set, is a member of
the warehouse list. -/
def SelInv (wm : WarehouseManager) : Prop :=
  ∀ cw, wm.current_warehouse = some cw → cw ∈ wm.warehouses

/-- The manager state right after a successful open of an empty (but already
initialized) database. -/
def wm0 : WarehouseManager := ⟨none, [], none, none, []⟩

/-- A manager state with one selected, empty warehouse `"A"`. -/
def wmA : WarehouseManager := ⟨some "A", ["A"], none, none, [("A", ⟨[], 0⟩)]⟩

/-- A source table with two items of quantities 5 and 3. -/
def tSrc : Table := ⟨[⟨"x", 1, 5, "ox"⟩, ⟨"y", 2, 3, "oy"⟩], 2⟩

/-- A manager state whose selected warehouse `"A"` holds `tSrc`. -/
def wmSrc : WarehouseManager := ⟨some "A", ["A"], none, none, [("A", tSrc)]⟩

/-- The table holding the one item inserted by `add_item "Bolt" "10" "steel"`
into a fresh warehouse. -/
def tBolt : Table := ⟨[⟨"Bolt", 1, 10, "steel"⟩], 1⟩

/-- The state reached from `wm0` by `add_warehouse "W" false` followed by
`add_item "Bolt" "10" "steel"`. -/
def wmBolt : WarehouseManager := ⟨some "W", ["W"], none, none, [("W", tBolt)]⟩

/-! ## Helper lemmas about the store model -/

/-- Looking a key up in an extended store finds the entry of the prefix. -/
theorem lookupTable_append_of_some (s1 s2 : Store) (n : String) (t : Table)
    (h : lookupTable s1 n = some t) : lookupTable (s1 ++ s2) n = some t := by
  induction s1 with
  | nil => simp [lookupTable] at h
  | cons p rest ih =>
    by_cases hp : (p.1 == n) = true
    · simpa [lookupTable, hp] using h
    · simp [lookupTable, hp] at h ⊢
      exact ih h

/-- Looking a key up in an extended store skips a prefix that misses it. -/
theorem lookupTable_append_of_none (s1 s2 : Store) (n : String)
    (h : lookupTable s1 n = none) : lookupTable (s1 ++ s2) n = lookupTable s2 n := by
  induction s1 with
  | nil => rfl
  | cons p rest ih =>
    by_cases hp : (p.1 == n) = true
    · simp [lookupTable, hp] at h
    · simp [lookupTable, hp] at h ⊢
      exact ih h

/-- Updating the table appended behind a store that does not contain it. -/
theorem updateTable_append_of_none (s1 : Store) (n : String) (t : Table)
    (f : Table → Table) (h : lookupTable s1 n = none) :
    updateTable (s1 ++ [(n, t)]) n f = s1 ++ [(n, f t)] := by
  induction s1 with
  | nil => simp [updateTable]
  | cons p rest ih =>
    by_cases hp : (p.1 == n) = true
    · simp [lookupTable, hp] at h
    · simp [lookupTable, hp] at h
      simp [updateTable, hp, ih h]

/-- An update that fixes the stored table leaves the store unchanged. -/
theorem updateTable_eq_self (s : Store) (n : String) (f : Table → Table)
    (t : Table) (h : lookupTable s n = some t) (hf : f t = t) :
    updateTable s n f = s := by
  induction s with
  | nil => rfl
  | cons p rest ih =>
    by_cases hp : (p.1 == n) = true
    · simp [lookupTable, hp] at h
      simp [updateTable, hp, h ▸ hf]
    · simp [lookupTable, hp] at h
      simp [updateTable, hp, ih h]

/-- `SelInv` transfers along equal selection fields. -/
theorem selInv_of_fields (wm wm2 : WarehouseManager)
    (hc : wm2.current_warehouse = wm.current_warehouse)
    (hw : wm2.warehouses = wm.warehouses) (h : SelInv wm) : SelInv wm2 := by
  intro cw hcw
  rw [hc] at hcw
  rw [hw]
  exact h cw hcw

/-- `add_item` only touches the store and the error field. -/
theorem add_item_fields (wm : WarehouseManager) (n q o : String) :
    (add_item wm n q o).current_warehouse = wm.current_warehouse ∧
    (add_item wm n q o).warehouses = wm.warehouses := by
  unfold add_item
  constructor <;> (split <;> try split) <;> rfl

/-- A normal `edit_quantity` return only touches the store and the error
field. -/
theorem edit_quantity_fields (wm : WarehouseManager) (a b : String)
    (s : WarehouseManager) (h : edit_quantity wm a b = Except.ok s) :
    s.current_warehouse = wm.current_warehouse ∧ s.warehouses = wm.warehouses := by
  unfold edit_quantity at h
  split at h
  · split at h
    · exact absurd h (by simp)
    · cases h; exact ⟨rfl, rfl⟩
    · split at h <;> cases h <;> exact ⟨rfl, rfl⟩
  · cases h; exact ⟨rfl, rfl⟩

/-- A normal `edit_item` return only touches the transient fields. -/
theorem edit_item_fields (wm : WarehouseManager) (a : String)
    (s : WarehouseManager) (h : edit_item wm a = Except.ok s) :
    s.current_warehouse = wm.current_warehouse ∧ s.warehouses = wm.warehouses := by
  unfold edit_item at h
  split at h
  · exact absurd h (by simp)
  · cases h; exact ⟨rfl, rfl⟩
  · split at h
    · exact absurd h (by simp)
    · split at h
      · exact absurd h (by simp)
      · split at h
        · exact absurd h (by simp)
        · split at h
          · cases h; exact ⟨rfl, rfl⟩
          · exact absurd h (by simp)

/-- A normal `save_edit` return only touches the store and the error field. -/
theorem save_edit_fields (wm : WarehouseManager) (n a b o c : String)
    (s : WarehouseManager) (h : save_edit wm n a b o c = Except.ok s) :
    s.current_warehouse = wm.current_warehouse ∧ s.warehouses = wm.warehouses := by
  have happ : ∀ nm i q ot oi,
      (save_edit_apply wm nm i q ot oi).current_warehouse = wm.current_warehouse ∧
      (save_edit_apply wm nm i q ot oi).warehouses = wm.warehouses := by
    intro nm i q ot oi
    unfold save_edit_apply
    constructor <;> split <;> rfl
  unfold save_edit at h
  split at h
  · cases h; exact ⟨rfl, rfl⟩
  · split at h
    · split at h
      · split at h
        · exact absurd h (by simp)
        · cases h; exact ⟨rfl, rfl⟩
        · cases h; exact happ _ _ _ _ _
      · cases h; exact happ _ _ _ _ _
    · cases h; exact ⟨rfl, rfl⟩

/-- `delete_item` only touches the store. -/
theorem delete_item_fields (wm : WarehouseManager) (a : String) :
    (delete_item wm a).current_warehouse = wm.current_warehouse ∧
    (delete_item wm a).warehouses = wm.warehouses := by
  unfold delete_item
  constructor <;> (split <;> try split) <;> rfl

/-! ## Preservation of the selection invariant -/

/-- `add_warehouse` preserves the selection invariant. -/
theorem selInv_add_warehouse (wm : WarehouseManager) (n : String) (c : Bool)
    (h : SelInv wm) : SelInv (add_warehouse wm n c) := by
  by_cases hmem : pyReplaceSpace n ∈ wm.warehouses
  · have heq : add_warehouse wm n c =
        { wm with error_message := some "Warehouse Name must be unique" } := by
      simp [add_warehouse, hmem]
    rw [heq]
    exact selInv_of_fields wm _ rfl rfl h
  · intro cw hcw
    have hc : (add_warehouse wm n c).current_warehouse = some (pyReplaceSpace n) := by
      simp [add_warehouse, hmem]
    have hw : (add_warehouse wm n c).warehouses = wm.warehouses ++ [pyReplaceSpace n] := by
      simp [add_warehouse, hmem]
    rw [hc] at hcw
    simp only [Option.some.injEq] at hcw
    rw [hw, ← hcw]
    simp

/-- `select_warehouse` preserves the selection invariant. -/
theorem selInv_select_warehouse (wm : WarehouseManager) (n : String)
    (h : SelInv wm) : SelInv (select_warehouse wm n) := by
  unfold select_warehouse
  split
  · exact selInv_of_fields wm _ rfl rfl h
  · split
    · exact h
    · rename_i hmem _
      intro cw hcw
      simp only [Option.some.injEq] at hcw
      simpa [← hcw] using not_not.mp hmem

/-- `delete_warehouse` (with a raise leaving the state unchanged) preserves
the selection invariant. -/
theorem selInv_delete_warehouse (wm : WarehouseManager) (h : SelInv wm) :
    SelInv (match delete_warehouse wm with
            | Except.ok s => s
            | Except.error _ => wm) := by
  unfold delete_warehouse
  cases hcw : wm.current_warehouse with
  | none => exact h
  | some cw =>
    by_cases hmem : cw ∈ wm.warehouses
    · simp only [hmem, if_pos]
      intro c hc
      simp at hc
    · simp only [hmem, if_neg, not_false_iff]
      exact h

/-- Every single call preserves the selection invariant. -/
theorem selInv_runOp (wm : WarehouseManager) (op : Op) (h : SelInv wm) :
    SelInv (runOp wm op) := by
  cases op with
  | add_warehouse n c => exact selInv_add_warehouse wm n c h
  | select_warehouse n => exact selInv_select_warehouse wm n h
  | delete_warehouse => exact selInv_delete_warehouse wm h
  | add_item n q o =>
    exact selInv_of_fields wm _ (add_item_fields wm n q o).1
      (add_item_fields wm n q o).2 h
  | edit_quantity a b =>
    show SelInv (match edit_quantity wm a b with
                 | Except.ok s => s
                 | Except.error _ => wm)
    cases he : edit_quantity wm a b with
    | ok s =>
      exact selInv_of_fields wm s (edit_quantity_fields wm a b s he).1
        (edit_quantity_fields wm a b s he).2 h
    | error e => exact h
  | edit_item a =>
    show SelInv (match edit_item wm a with
                 | Except.ok s => s
                 | Except.error _ => wm)
    cases he : edit_item wm a with
    | ok s =>
      exact selInv_of_fields wm s (edit_item_fields wm a s he).1
        (edit_item_fields wm a s he).2 h
    | error e => exact h
  | save_edit n a b o c =>
    show SelInv (match save_edit wm n a b o c with
                 | Except.ok s => s
                 | Except.error _ => wm)
    cases he : save_edit wm n a b o c with
    | ok s =>
      exact selInv_of_fields wm s (save_edit_fields wm n a b o c s he).1
        (save_edit_fields wm n a b o c s he).2 h
    | error e => exact h
  | delete_item a =>
    exact selInv_of_fields wm _ (delete_item_fields wm a).1
      (delete_item_fields wm a).2 h
  | get_warehouse_data => exact selInv_of_fields wm _ rfl rfl h

/-- The selection invariant holds along any call sequence. -/
theorem selInv_reachFrom (s0 : WarehouseManager) (h : SelInv s0)
    (ops : List Op) : SelInv (reachFrom s0 ops) := by
  induction ops generalizing s0 with
  | nil => exact h
  | cons op rest ih => exact ih (runOp s0 op) (selInv_runOp s0 op h)

/-- A successful open selects no warehouse. -/
theorem openManager_current (store : Store) (hs : Bool) (s0 : WarehouseManager)
    (h : openManager store hs = Except.ok s0) : s0.current_warehouse = none := by
  simp only [openManager] at h
  cases hw : initWarehouses (store.map Prod.fst ++
      (if hs then ["sqlite_sequence"] else [])) with
  | ok ws =>
    rw [hw] at h
    cases h
    rfl
  | error e =>
    rw [hw] at h
    cases h

/-! ## Claim theorems -/

/-- C1: the claim says every mutating operation returns normally at the core
boundary, in every session state including the one with no warehouse
selected.  The code violates this: starting from the state a successful open
of an empty initialized database produces, `edit_quantity "1" "1"` (both
arguments parse as integers) reaches `id_exists`, whose SELECT runs against
the table `None`, the read helper swallows the sqlite error and returns
`None`, and the `[0][0]` subscript raises `TypeError` out of the
operation. -/
theorem edit_quantity_no_warehouse_raises :
    openManager [] true = Except.ok wm0 ∧
    edit_quantity wm0 "1" "1" =
      Except.error (PyExn.typeError "\x27NoneType\x27 object is not subscriptable") :=
  ⟨rfl, rfl⟩

/-- C5: the claim says open completes for every storage location, including
a location with no store yet.  On a fresh empty database `sqlite_master`
lists no tables, so line 37's `self.warehouses.remove("sqlite_sequence")`
raises `ValueError` and `__init__` does not complete. -/
theorem open_fresh_store_raises :
    openManager [] false =
      Except.error (PyExn.valueError "list.remove(x): x not in list") := rfl

/-- C2: in every state reachable from a successful open by any call
sequence, the current warehouse, if set, is a member of the warehouse list,
and every single operation preserves this invariant. -/
theorem current_warehouse_membership_invariant (store : Store) (hs : Bool)
    (s0 : WarehouseManager) (h0 : openManager store hs = Except.ok s0)
    (ops : List Op) :
    SelInv (reachFrom s0 ops) ∧ (∀ wm op, SelInv wm → SelInv (runOp wm op)) := by
  refine ⟨selInv_reachFrom s0 ?_ ops, fun wm op h => selInv_runOp wm op h⟩
  intro cw hcw
  rw [openManager_current store hs s0 h0] at hcw
  cases hcw

/-- Witness for C2 at a concrete open and call sequence. -/
theorem current_warehouse_membership_invariant_witness :
    SelInv (reachFrom wm0 [Op.add_warehouse "A" false,
      Op.add_item "Bolt" "10" "steel", Op.select_warehouse "B",
      Op.delete_warehouse]) ∧
    (∀ wm op, SelInv wm → SelInv (runOp wm op)) :=
  current_warehouse_membership_invariant [] true wm0 rfl
    [Op.add_warehouse "A" false, Op.add_item "Bolt" "10" "steel",
     Op.select_warehouse "B", Op.delete_warehouse]

/-- C6: creating a warehouse whose normalized name is already known sets
exactly the duplicate-name error and performs no other action: the whole
state apart from the error field (warehouse list, selection, store) is
unchanged, and in particular the list length is unchanged. -/
theorem add_warehouse_duplicate_name (wm : WarehouseManager) (name : String)
    (c : Bool) (h : pyReplaceSpace name ∈ wm.warehouses) :
    add_warehouse wm name c =
      { wm with error_message := some "Warehouse Name must be unique" } ∧
    (add_warehouse wm name c).warehouses.length = wm.warehouses.length := by
  have heq : add_warehouse wm name c =
      { wm with error_message := some "Warehouse Name must be unique" } := by
    simp [add_warehouse, h]
  exact ⟨heq, by rw [heq]⟩

/-- Witness for C6: a second `add_warehouse "A"` on `wmA`. -/
theorem add_warehouse_duplicate_name_witness :
    add_warehouse wmA "A" false =
      { wmA with error_message := some "Warehouse Name must be unique" } ∧
    (add_warehouse wmA "A" false).warehouses.length = wmA.warehouses.length :=
  add_warehouse_duplicate_name wmA "A" false (by decide)

/-- C7 as stated is false at a concrete input: with warehouse `"A"` selected
and the non-integer quantity `"abc"`, the error the code sets is the
misspelled string "must be an interger", not the claimed "must be an
integer". -/
theorem add_item_message_counterexample :
    add_item wmA "Bolt" "abc" "" =
      { wmA with error_message := some "\x27Quantity\x27 must be an interger" } ∧
    (add_item wmA "Bolt" "abc" "").error_message ≠
      some "\x27Quantity\x27 must be an integer" := by
  exact ⟨rfl, by decide⟩

/-- C7 amended: with a warehouse selected and a quantity string that does
not parse as an integer, `add_item` sets the error to exactly
"'Quantity' must be an interger" (sic, the code's spelling) and aborts with
no other change at all. -/
theorem add_item_nonint_quantity_spec (wm : WarehouseManager) (cw : String)
    (h1 : wm.current_warehouse = some cw) (name q other : String)
    (hq : pyInt q = none) :
    add_item wm name q other =
      { wm with error_message := some "\x27Quantity\x27 must be an interger" } := by
  simp only [add_item, h1, hq]

/-- Witness for the amended C7. -/
theorem add_item_nonint_quantity_witness :
    add_item wmA "Bolt" "abc" "" =
      { wmA with error_message := some "\x27Quantity\x27 must be an interger" } :=
  add_item_nonint_quantity_spec wmA "A" rfl "Bolt" "abc" "" rfl

/-- C3 as universally stated is false at a concrete input: `"east-wing"`
is a fresh normalized name (normalization only replaces spaces, line 104),
but sqlite rejects `CREATE TABLE east-wing (...)` and `__execute_query`
swallows the error, so the copy statements fail too; the name is still
selected and appended while no table and no item records exist for it —
instead of a new warehouse holding the source's two items with quantity 0,
there is nothing to read at all. -/
theorem add_warehouse_copy_items_counterexample :
    pyReplaceSpace "east-wing" = "east-wing" ∧
    "east-wing" ∉ wmSrc.warehouses ∧
    (add_warehouse wmSrc "east-wing" true).current_warehouse = some "east-wing" ∧
    (add_warehouse wmSrc "east-wing" true).warehouses = ["A", "east-wing"] ∧
    lookupTable (add_warehouse wmSrc "east-wing" true).store "east-wing" = none ∧
    getItems (add_warehouse wmSrc "east-wing" true) = none := by
  refine ⟨rfl, by decide, by decide, by decide, by decide, by decide⟩

/-- C3 amended: with a warehouse selected and a fresh normalized name that
sqlite accepts as a bare table identifier, `add_warehouse name true`
produces a new warehouse whose item records keep the source items' name,
id and other with every quantity 0, the item count is preserved, and the
new name becomes current and is appended at the end of the warehouse
list.  (For a fresh normalized name sqlite rejects, the counterexample
shows the name is selected and appended but no table is created.) -/
theorem add_warehouse_copy_items_spec (wm : WarehouseManager) (cw : String)
    (src : Table) (name : String)
    (h1 : wm.current_warehouse = some cw)
    (h2 : lookupTable wm.store cw = some src)
    (hfresh : pyReplaceSpace name ∉ wm.warehouses)
    (hvalid : validTableName (pyReplaceSpace name) = true)
    (hstore : lookupTable wm.store (pyReplaceSpace name) = none) :
    (add_warehouse wm name true).current_warehouse = some (pyReplaceSpace name) ∧
    (add_warehouse wm name true).warehouses = wm.warehouses ++ [pyReplaceSpace name] ∧
    lookupTable (add_warehouse wm name true).store (pyReplaceSpace name) =
      some ⟨src.items.map (fun it => { it with quantity := 0 }),
            max 0 (maxId src.items)⟩ ∧
    (src.items.map (fun it => { it with quantity := 0 })).length =
      src.items.length := by
  have hst1 : createTable wm.store (pyReplaceSpace name) =
      wm.store ++ [(pyReplaceSpace name, ⟨[], 0⟩)] := by
    simp [createTable, hvalid, hstore]
  have hlook1 : lookupTable (createTable wm.store (pyReplaceSpace name)) cw = some src := by
    rw [hst1]
    exact lookupTable_append_of_some _ _ _ _ h2
  have hadd : add_warehouse wm name true = { wm with
      current_warehouse := some (pyReplaceSpace name),
      warehouses := wm.warehouses ++ [pyReplaceSpace name],
      store := wm.store ++ [(pyReplaceSpace name,
        ⟨src.items.map (fun it => { it with quantity := 0 }),
         max 0 (maxId src.items)⟩)] } := by
    simp only [add_warehouse, hfresh, if_neg, not_false_iff, h1, hlook1]
    rw [hst1, updateTable_append_of_none wm.store _ _ _ hstore,
      updateTable_append_of_none wm.store _ _ _ hstore]
    simp
  rw [hadd]
  refine ⟨rfl, rfl, ?_, by simp⟩
  rw [lookupTable_append_of_none wm.store _ _ hstore]
  simp [lookupTable]

/-- Witness for C3: copying warehouse `"A"` (quantities 5 and 3) to `"B"`. -/
theorem add_warehouse_copy_items_witness :
    (add_warehouse wmSrc "B" true).current_warehouse = some (pyReplaceSpace "B") ∧
    (add_warehouse wmSrc "B" true).warehouses = wmSrc.warehouses ++ [pyReplaceSpace "B"] ∧
    lookupTable (add_warehouse wmSrc "B" true).store (pyReplaceSpace "B") =
      some ⟨tSrc.items.map (fun it => { it with quantity := 0 }),
            max 0 (maxId tSrc.items)⟩ ∧
    (tSrc.items.map (fun it => { it with quantity := 0 })).length =
      tSrc.items.length :=
  add_warehouse_copy_items_spec wmSrc "A" tSrc "B" rfl rfl (by decide) (by decide)
    (by decide)

/-- C4: `get_warehouse_data` returns the five-field snapshot, with
`items = none` (not an error) when no warehouse is selected, then
unconditionally clears both transient fields while leaving the selection,
the warehouse list and the stored items unchanged; staging an item with
`edit_item` makes the first snapshot read carry the payload and a second
consecutive read carry `none`. -/
theorem get_warehouse_data_spec (wm : WarehouseManager) :
    (get_warehouse_data wm).1 = ⟨wm.current_warehouse, wm.warehouses,
      getItems wm, wm.edit_item_data, wm.error_message⟩ ∧
    (wm.current_warehouse = none → (get_warehouse_data wm).1.items = none) ∧
    (∀ cw t, wm.current_warehouse = some cw → lookupTable wm.store cw = some t →
      (get_warehouse_data wm).1.items = some t.items) ∧
    (get_warehouse_data wm).2 =
      { wm with error_message := none, edit_item_data := none } ∧
    (get_warehouse_data (get_warehouse_data wm).2).1.edit_item_data = none ∧
    (get_warehouse_data (get_warehouse_data wm).2).1.error_message = none ∧
    (∀ cw t idS i it, wm.current_warehouse = some cw →
      lookupTable wm.store cw = some t → sqlIntLit idS = some i →
      t.items.find? (fun x => x.id == i) = some it →
      edit_item wm idS = Except.ok { wm with edit_item_data := some it } ∧
      (get_warehouse_data { wm with edit_item_data := some it }).1.edit_item_data
        = some it) := by
  refine ⟨rfl, ?_, ?_, rfl, rfl, rfl, ?_⟩
  · intro h
    simp [get_warehouse_data, getItems, h]
  · intro cw t h1 h2
    simp [get_warehouse_data, getItems, h1, h2]
  · intro cw t idS i it h1 h2 hsql hfind
    have hp := List.find?_some (p := fun x : Item => x.id == i) hfind
    have hany : (t.items.any fun x => x.id == i) = true :=
      List.any_eq_true.mpr ⟨it, List.mem_of_find?_eq_some hfind, hp⟩
    refine ⟨?_, rfl⟩
    simp only [edit_item, id_exists_str, id_exists, hsql, h1, h2, hany, hfind]

/-- Witness for C4 at the one-item state `wmSrc`. -/
theorem get_warehouse_data_witness :
    (get_warehouse_data wmSrc).1 = ⟨wmSrc.current_warehouse, wmSrc.warehouses,
      getItems wmSrc, wmSrc.edit_item_data, wmSrc.error_message⟩ ∧
    (wmSrc.current_warehouse = none → (get_warehouse_data wmSrc).1.items = none) ∧
    (∀ cw t, wmSrc.current_warehouse = some cw →
      lookupTable wmSrc.store cw = some t →
      (get_warehouse_data wmSrc).1.items = some t.items) ∧
    (get_warehouse_data wmSrc).2 =
      { wmSrc with error_message := none, edit_item_data := none } ∧
    (get_warehouse_data (get_warehouse_data wmSrc).2).1.edit_item_data = none ∧
    (get_warehouse_data (get_warehouse_data wmSrc).2).1.error_message = none ∧
    (∀ cw t idS i it, wmSrc.current_warehouse = some cw →
      lookupTable wmSrc.store cw = some t → sqlIntLit idS = some i →
      t.items.find? (fun x => x.id == i) = some it →
      edit_item wmSrc idS = Except.ok { wmSrc with edit_item_data := some it } ∧
      (get_warehouse_data { wmSrc with edit_item_data := some it }).1.edit_item_data
        = some it) :=
  get_warehouse_data_spec wmSrc

/-- C8: with a warehouse selected, an existing id and any integer delta,
`edit_quantity` adds the delta to exactly the matching item's quantity with
no bound checks, leaving its other fields and every other item unchanged. -/
theorem edit_quantity_delta_spec (wm : WarehouseManager) (cw : String)
    (t : Table) (idS deltaS : String) (i d : Int)
    (h1 : wm.current_warehouse = some cw)
    (h2 : lookupTable wm.store cw = some t)
    (hi : pyInt idS = some i) (hd : pyInt deltaS = some d)
    (hex : (t.items.any fun it => it.id == i) = true) :
    edit_quantity wm idS deltaS =
      Except.ok { wm with store := updateTable wm.store cw (fun tb =>
        { tb with items := tb.items.map (fun it =>
            if it.id == i then { it with quantity := it.quantity + d }
            else it) }) } := by
  simp only [edit_quantity, id_exists, hi, hd, h1, h2, hex]

/-- Witness for C8: the Bolt scenario, quantity 10 adjusted by -3 gives 7. -/
theorem edit_quantity_delta_witness :
    add_item (add_warehouse wm0 "W" false) "Bolt" "10" "steel" = wmBolt ∧
    edit_quantity wmBolt "1" "-3" =
      Except.ok { wmBolt with store := updateTable wmBolt.store "W" (fun tb =>
        { tb with items := tb.items.map (fun it =>
            if it.id == (1 : Int) then { it with quantity := it.quantity + (-3) }
            else it) }) } ∧
    lookupTable (updateTable wmBolt.store "W" (fun tb =>
        { tb with items := tb.items.map (fun it =>
            if it.id == (1 : Int) then { it with quantity := it.quantity + (-3) }
            else it) })) "W" = some ⟨[⟨"Bolt", 1, 7, "steel"⟩], 1⟩ :=
  ⟨by decide,
   edit_quantity_delta_spec wmBolt "W" tBolt "1" "-3" 1 (-3) rfl rfl rfl rfl
     (by decide),
   by decide⟩

/-- C9: with a warehouse selected and an id not present in it,
`delete_item` is a silent no-op: no error is set and nothing at all
changes, while `edit_quantity` and `edit_item` on the same missing id do
set their respective errors. -/
theorem delete_item_missing_id_noop (wm : WarehouseManager) (cw : String)
    (t : Table) (idS : String) (i : Int)
    (h1 : wm.current_warehouse = some cw)
    (h2 : lookupTable wm.store cw = some t)
    (hsql : sqlIntLit idS = some i) (hpy : pyInt idS = some i)
    (hmiss : ∀ it ∈ t.items, (it.id == i) = false) :
    delete_item wm idS = wm ∧
    edit_quantity wm idS idS =
      Except.ok { wm with error_message := some "Item ID does not exist!" } ∧
    edit_item wm idS =
      Except.ok { wm with error_message := some "Item ID does not exist" } := by
  have hany : (t.items.any fun it => it.id == i) = false :=
    List.any_eq_false.mpr (fun x hx => by simp [hmiss x hx])
  refine ⟨?_, ?_, ?_⟩
  · have hfix : (fun tb : Table =>
        { tb with items := tb.items.filter (fun it => !(it.id == i)) }) t = t := by
      have hfilter : t.items.filter (fun it => !(it.id == i)) = t.items :=
        List.filter_eq_self.mpr (fun a ha => by simp [hmiss a ha])
      show ({ items := t.items.filter (fun it => !(it.id == i)),
              seq := t.seq } : Table) = t
      rw [hfilter]
    simp only [delete_item, h1, hsql]
    rw [updateTable_eq_self wm.store cw _ t h2 hfix, ← h1]
  · simp only [edit_quantity, id_exists, hpy, h1, h2, hany]
  · simp only [edit_item, id_exists_str, id_exists, hsql, h1, h2, hany]

/-- Witness for C9: deleting the absent id 9 from `wmSrc`. -/
theorem delete_item_missing_id_witness :
    delete_item wmSrc "9" = wmSrc ∧
    edit_quantity wmSrc "9" "9" =
      Except.ok { wmSrc with error_message := some "Item ID does not exist!" } ∧
    edit_item wmSrc "9" =
      Except.ok { wmSrc with error_message := some "Item ID does not exist" } :=
  delete_item_missing_id_noop wmSrc "A" tSrc "9" 9 rfl rfl rfl rfl (by decide)

end Warehouse
